import Mathlib

/-!
Shallow embedding of `src/usage_tracker.py` (in-memory usage tracker for
panel dashboards) and verification of its specification claims.

Python values that can appear in a token-stats dictionary are modelled by
`PyVal`; Python `dict.get` by `dictGet` on association lists; `x or y` by
`pyOr` (first truthy wins); `int(...)` conversion by `tryToInt`
(`Option.none` models a raised exception).  Machine floats (Unix
timestamps) are modelled as rationals; threading locks are not modelled
(every tracker operation is a pure state transformer).
-/

/-- A Python value as it may occur in a raw token-stats dict. -/
inductive PyVal where
  | none
  | int (i : Int)
  | str (s : String)
  | bool (b : Bool)
  | float (q : Rat)
deriving Repr, DecidableEq

/-- Python truthiness of a `PyVal`. -/
def PyVal.truthy : PyVal → Bool
  | PyVal.none => false
  | PyVal.int i => i != 0
  | PyVal.str s => s != ""
  | PyVal.bool b => b
  | PyVal.float q => q != 0

/-- Python `a or b`: `a` if truthy, else `b`. -/
def pyOr (a b : PyVal) : PyVal :=
  if a.truthy then a else b

/-- Truncation toward zero, as Python `int(float)` does. -/
def ratTrunc (q : Rat) : Int :=
  if 0 ≤ q then ⌊q⌋ else ⌈q⌉

/-- Python `str.strip()`: remove leading and trailing whitespace. -/
def pyStrip (s : String) : String :=
  String.mk (((s.data.dropWhile Char.isWhitespace).reverse.dropWhile
    Char.isWhitespace).reverse)

/-- The value of a non-empty all-digit character run. -/
def digitsVal (cs : List Char) : Option Nat :=
  if cs ≠ [] ∧ cs.all Char.isDigit
  then Option.some (cs.foldl (fun a c => a * 10 + (c.toNat - 48)) 0)
  else Option.none

/-- Python `int(str)`: optional surrounding whitespace, an optional sign,
then decimal digits; anything else raises (`Option.none`).  Digit-group
underscores accepted by CPython are not modelled. -/
def pyStrToInt (s : String) : Option Int :=
  match (pyStrip s).data with
  | '+' :: rest => (digitsVal rest).map (fun n => (n : Int))
  | '-' :: rest => (digitsVal rest).map (fun n => -(n : Int))
  | rest => (digitsVal rest).map (fun n => (n : Int))

/-- Python `int(v)`: `Option.none` models a raised `TypeError`/`ValueError`.
`int(None)` raises; `int` of a bool gives 0/1; `int` of a float truncates
toward zero; `int` of a string parses an optionally signed integer literal
(surrounding whitespace allowed), raising on anything else. -/
def tryToInt : PyVal → Option Int
  | PyVal.none => Option.none
  | PyVal.int i => Option.some i
  | PyVal.bool b => Option.some (if b then 1 else 0)
  | PyVal.float q => Option.some (ratTrunc q)
  | PyVal.str s => pyStrToInt s

/-- `_safe_int` from `usage_tracker.py`: `int(value or 0)` clamped to be
positive, any exception collapsing to 0. -/
def safe_int (value : PyVal) : Int :=
  match tryToInt (pyOr value (PyVal.int 0)) with
  | Option.some ivalue => if ivalue > 0 then ivalue else 0
  | Option.none => 0

/-- A raw token-stats dictionary: keys to Python values. -/
def TokenDict := List (String × PyVal)

/-- Python `dict.get(k)`: `None` when the key is absent. -/
def dictGet (d : List (String × PyVal)) (k : String) : PyVal :=
  match d with
  | [] => PyVal.none
  | (k', v) :: rest => if k' = k then v else dictGet rest k

/-- The normalized five-field token statistics value object. -/
structure TokenStats where
  input_tokens : Int
  output_tokens : Int
  reasoning_tokens : Int
  cached_tokens : Int
  total_tokens : Int
deriving Repr, DecidableEq

/-- `normalize_token_stats` from `usage_tracker.py`: resolve each logical
field from the first truthy alternate spelling, coerce via `_safe_int`,
and fall back to `input + output + reasoning` when the explicit total
resolves to 0. -/
def normalize_token_stats (tokens : Option (List (String × PyVal))) : TokenStats :=
  let token_data := tokens.getD []
  let input_tokens := safe_int
    (pyOr (dictGet token_data "input_tokens")
      (pyOr (dictGet token_data "prompt_tokens")
        (dictGet token_data "inputTokens")))
  let output_tokens := safe_int
    (pyOr (dictGet token_data "output_tokens")
      (pyOr (dictGet token_data "completion_tokens")
        (dictGet token_data "outputTokens")))
  let reasoning_tokens := safe_int
    (pyOr (dictGet token_data "reasoning_tokens")
      (pyOr (dictGet token_data "thoughts_tokens")
        (dictGet token_data "reasoningTokens")))
  let cached_tokens := safe_int
    (pyOr (dictGet token_data "cached_tokens")
      (pyOr (dictGet token_data "cache_read_input_tokens")
        (dictGet token_data "cachedTokens")))
  let total_tokens := safe_int
    (pyOr (dictGet token_data "total_tokens")
      (pyOr (dictGet token_data "totalTokenCount")
        (dictGet token_data "totalTokens")))
  let total_tokens := if total_tokens = 0
    then input_tokens + output_tokens + reasoning_tokens
    else total_tokens
  { input_tokens := input_tokens
    output_tokens := output_tokens
    reasoning_tokens := reasoning_tokens
    cached_tokens := cached_tokens
    total_tokens := total_tokens }

/-- The value the explicit total-tokens spellings resolve to (spec-side
name for the sub-expression computing `total_tokens` before the fallback). -/
def explicitTotal (token_data : List (String × PyVal)) : Int :=
  safe_int
    (pyOr (dictGet token_data "total_tokens")
      (pyOr (dictGet token_data "totalTokenCount")
        (dictGet token_data "totalTokens")))

/-- One recorded usage event (the dict built by `UsageTracker.record`). -/
structure Event where
  api : String
  model : String
  source : String
  auth_index : String
  failed : Bool
  status_code : Int
  error_message : String
  tokens : TokenStats
  timestamp : Rat
deriving Repr, DecidableEq

/-- The tracker state: the deque's `maxlen` plus its contents in insertion
order (oldest first).  The `threading.RLock` is not modelled; operations
are pure state transformers. -/
structure UsageTracker where
  maxlen : Nat
  events : List Event
deriving Repr, DecidableEq

/-- `UsageTracker.__init__`: an empty deque with `maxlen = max_details`
(the Python default is 50000). -/
def UsageTracker.init (max_details : Nat) : UsageTracker :=
  { maxlen := max_details, events := [] }

/-- Appending to a `collections.deque` with a `maxlen`: the new element
goes on the right and the oldest elements fall off the left so that at
most `maxlen` remain. -/
def dequeAppend (maxlen : Nat) (xs : List Event) (e : Event) : List Event :=
  let ys := xs ++ [e]
  if maxlen < ys.length then ys.drop (ys.length - maxlen) else ys

/-- Python `s or dflt` for strings: `dflt` when `s` is empty. -/
def strOr (s dflt : String) : String :=
  if s = "" then dflt else s

/-- The arguments of one `UsageTracker.record` call.  Optional Python
parameters are `Option`s; `now` is the value `time.time()` would return
during the call (used only when `timestamp` is absent). -/
structure RecordCall where
  api : String
  model : String
  source : String
  auth_index : String
  failed : Bool
  tokens : Option (List (String × PyVal))
  status_code : Option Int
  error_message : Option String
  timestamp : Option Rat
  now : Rat
deriving Repr, DecidableEq

/-- The event dict `UsageTracker.record` constructs from its arguments,
with all the defaulting/stripping rules of the source. -/
def mkEvent (c : RecordCall) : Event :=
  { api := strOr (pyStrip (strOr c.api "unknown")) "unknown"
    model := strOr (pyStrip (strOr c.model "unknown")) "unknown"
    source := strOr (pyStrip (strOr c.source "unknown")) "unknown"
    auth_index := strOr (pyStrip (strOr c.auth_index (strOr c.source "-"))) "-"
    failed := c.failed
    status_code := match c.status_code with
      | Option.some i => safe_int (PyVal.int i)
      | Option.none => 0
    error_message := pyStrip (c.error_message.getD "")
    tokens := normalize_token_stats c.tokens
    timestamp := c.timestamp.getD c.now }

/-- `UsageTracker.record`: build the event and append it to the bounded
deque. -/
def UsageTracker.record (t : UsageTracker) (c : RecordCall) : UsageTracker :=
  { t with events := dequeAppend t.maxlen t.events (mkEvent c) }

/-- A sequence of `record` calls applied in order. -/
def recordAll (t : UsageTracker) (cs : List RecordCall) : UsageTracker :=
  cs.foldl UsageTracker.record t

/-- `UsageTracker.reset`: no argument or an empty string (both falsy in
Python, `if not source:`) clears the whole store and returns the prior
count; a whitespace-only argument is a no-op returning 0; otherwise keep
exactly the events whose `source` differs from the trimmed argument,
rebuilding the deque with the same `maxlen`, and return the number
removed. -/
def UsageTracker.reset (t : UsageTracker) (source : Option String) :
    UsageTracker × Nat :=
  match source with
  | Option.none => ({ maxlen := t.maxlen, events := [] }, t.events.length)
  | Option.some s =>
    if s = "" then ({ maxlen := t.maxlen, events := [] }, t.events.length)
    else
      let target := pyStrip s
      if target = "" then (t, 0)
      else
        let kept := t.events.filter (fun e => e.source ≠ target)
        ({ maxlen := t.maxlen, events := kept }, t.events.length - kept.length)

/-- `UsageTracker._snapshot_events`: a point-in-time copy of the store. -/
def UsageTracker.snapshot_events (t : UsageTracker) : List Event :=
  t.events

/-- Per-source 24-hour statistics row. -/
structure SourceStats where
  calls_24h : Nat
  success_24h : Nat
  failed_24h : Nat
  tokens_24h : Int
deriving Repr, DecidableEq

/-- The zero row `setdefault` installs for a new source. -/
def zeroStats : SourceStats :=
  { calls_24h := 0, success_24h := 0, failed_24h := 0, tokens_24h := 0 }

/-- The four `+=` updates `get_stats_24h` applies for one event. -/
def addEventStats (st : SourceStats) (e : Event) : SourceStats :=
  { calls_24h := st.calls_24h + 1
    success_24h := if e.failed then st.success_24h else st.success_24h + 1
    failed_24h := if e.failed then st.failed_24h + 1 else st.failed_24h
    tokens_24h := st.tokens_24h + e.tokens.total_tokens }

/-- Python dict `setdefault` + in-place update, on an insertion-ordered
association list: update the entry for `k` if present, else append
`(k, f dflt)`. -/
def bumpAssoc {A : Type} (l : List (String × A)) (k : String) (dflt : A)
    (f : A → A) : List (String × A) :=
  match l with
  | [] => [(k, f dflt)]
  | (k', v) :: rest =>
    if k' = k then (k', f v) :: rest else (k', v) :: bumpAssoc rest k dflt f

/-- Association-list lookup (Python `d[k]` / `d.get(k)` on the result
  dicts). -/
def lookupAssoc {A : Type} (l : List (String × A)) (k : String) : Option A :=
  match l with
  | [] => Option.none
  | (k', v) :: rest => if k' = k then Option.some v else lookupAssoc rest k

/-- One iteration of the `get_stats_24h` loop: skip events older than the
cutoff, otherwise bump the row for the event's source. -/
def statsStep (cutoff : Rat) (acc : List (String × SourceStats)) (e : Event) :
    List (String × SourceStats) :=
  if e.timestamp < cutoff then acc
  else bumpAssoc acc e.source zeroStats (fun st => addEventStats st e)

/-- `UsageTracker.get_stats_24h`, with `time.time()` passed in as `now`:
group the last 24 hours of events by source. -/
def UsageTracker.get_stats_24h (t : UsageTracker) (now : Rat) :
    List (String × SourceStats) :=
  t.snapshot_events.foldl (statsStep (now - 24 * 3600)) []

/-- The result of `get_aggregated_24h` (Python floats as rationals). -/
structure Aggregated where
  total_calls_24h : Nat
  total_files : Nat
  avg_calls_per_file : Rat
deriving Repr, DecidableEq

/-- `UsageTracker.get_aggregated_24h`: totals over `get_stats_24h`, with
the division guarded when there are no sources. -/
def UsageTracker.get_aggregated_24h (t : UsageTracker) (now : Rat) :
    Aggregated :=
  let stats := t.get_stats_24h now
  let total_calls : Nat := (stats.map (fun p => p.2.calls_24h)).sum
  let total_files := stats.length
  let avg_calls : Rat :=
    if total_files ≠ 0 then (total_calls : Rat) / (total_files : Rat) else 0
  { total_calls_24h := total_calls
    total_files := total_files
    avg_calls_per_file := avg_calls }

/-- Left-pad a natural-style integer rendering to two digits (`strftime`
  zero padding). -/
def pad2 (n : Int) : String :=
  if 0 ≤ n ∧ n < 10 then "0" ++ toString n else toString n

/-- Left-pad a year to four digits (`strftime` `%Y` padding). -/
def pad4 (n : Int) : String :=
  if 0 ≤ n ∧ n < 10 then "000" ++ toString n
  else if 0 ≤ n ∧ n < 100 then "00" ++ toString n
  else if 0 ≤ n ∧ n < 1000 then "0" ++ toString n
  else toString n

/-- Proleptic-Gregorian civil date (year, month, day) from a count of days
since the Unix epoch (1970-01-01), the conversion
`datetime.fromtimestamp(ts, tz=timezone.utc)` performs. -/
def civilFromDays (z0 : Int) : Int × Int × Int :=
  let z := z0 + 719468
  let era := Int.fdiv z 146097
  let doe := z - era * 146097
  let yoe := (doe - doe / 1460 + doe / 36524 - doe / 146096) / 365
  let y := yoe + era * 400
  let doy := doe - (365 * yoe + yoe / 4 - yoe / 100)
  let mp := (5 * doy + 2) / 153
  let d := doy - (153 * mp + 2) / 5 + 1
  let m := mp + (if mp < 10 then 3 else -9)
  (if m ≤ 2 then y + 1 else y, m, d)

/-- Whole days since the epoch for a timestamp (floor division). -/
def epochDays (ts : Rat) : Int :=
  Int.fdiv ⌊ts⌋ 86400

/-- Second of the UTC day for a timestamp, in `[0, 86400)`. -/
def secondOfDay (ts : Rat) : Int :=
  ⌊ts⌋ - 86400 * epochDays ts

/-- The `strftime("%Y-%m-%d")` UTC day key of an event timestamp. -/
def dayKey (ts : Rat) : String :=
  let ymd := civilFromDays (epochDays ts)
  pad4 ymd.1 ++ "-" ++ pad2 ymd.2.1 ++ "-" ++ pad2 ymd.2.2

/-- The `strftime("%H")` UTC hour-of-day key of an event timestamp. -/
def hourKey (ts : Rat) : String :=
  pad2 (secondOfDay ts / 3600)

/-- One per-event detail record in the snapshot (the ISO-8601 rendering of
the timestamp is string presentation; the instant itself is kept). -/
structure DetailRec where
  timestamp : Rat
  source : String
  auth_index : String
  tokens : TokenStats
  failed : Bool
deriving Repr, DecidableEq

/-- Per-model aggregate inside the snapshot's `apis` structure. -/
structure ModelData where
  total_requests : Nat
  total_tokens : Int
  details : List DetailRec
deriving Repr, DecidableEq

/-- The zero per-model aggregate `setdefault` installs. -/
def emptyModelData : ModelData :=
  { total_requests := 0, total_tokens := 0, details := [] }

/-- Per-API aggregate inside the snapshot's `apis` structure. -/
structure ApiData where
  total_requests : Nat
  total_tokens : Int
  models : List (String × ModelData)
deriving Repr, DecidableEq

/-- The zero per-API aggregate `setdefault` installs. -/
def emptyApiData : ApiData :=
  { total_requests := 0, total_tokens := 0, models := [] }

/-- The full breakdown `UsageTracker.snapshot` returns. -/
structure Snapshot where
  total_requests : Nat
  success_count : Nat
  failure_count : Nat
  total_tokens : Int
  apis : List (String × ApiData)
  requests_by_day : List (String × Nat)
  requests_by_hour : List (String × Nat)
  tokens_by_day : List (String × Int)
  tokens_by_hour : List (String × Int)
deriving Repr, DecidableEq

/-- The detail record appended for one event. -/
def mkDetail (e : Event) : DetailRec :=
  { timestamp := e.timestamp
    source := e.source
    auth_index := e.auth_index
    tokens := e.tokens
    failed := e.failed }

/-- One iteration of the `snapshot` loop: bump the global counters, the
four histograms and the nested per-API/per-model aggregates for one
event. -/
def snapStep (acc : Snapshot) (e : Event) : Snapshot :=
  let token_total := safe_int (PyVal.int e.tokens.total_tokens)
  let day_key := dayKey e.timestamp
  let hour_key := hourKey e.timestamp
  { acc with
    total_tokens := acc.total_tokens + token_total
    success_count := if e.failed then acc.success_count else acc.success_count + 1
    failure_count := if e.failed then acc.failure_count + 1 else acc.failure_count
    requests_by_day := bumpAssoc acc.requests_by_day day_key 0 (· + 1)
    requests_by_hour := bumpAssoc acc.requests_by_hour hour_key 0 (· + 1)
    tokens_by_day := bumpAssoc acc.tokens_by_day day_key 0 (· + token_total)
    tokens_by_hour := bumpAssoc acc.tokens_by_hour hour_key 0 (· + token_total)
    apis := bumpAssoc acc.apis e.api emptyApiData (fun api_data =>
      { api_data with
        total_requests := api_data.total_requests + 1
        total_tokens := api_data.total_tokens + token_total
        models := bumpAssoc api_data.models e.model emptyModelData
          (fun model_data =>
            { model_data with
              total_requests := model_data.total_requests + 1
              total_tokens := model_data.total_tokens + token_total
              details := model_data.details ++ [mkDetail e] }) }) }

/-- The snapshot accumulator before the loop: `total_requests` is the
event count taken up front, everything else starts empty. -/
def snapInit (events : List Event) : Snapshot :=
  { total_requests := events.length
    success_count := 0
    failure_count := 0
    total_tokens := 0
    apis := []
    requests_by_day := []
    requests_by_hour := []
    tokens_by_day := []
    tokens_by_hour := [] }

/-- `UsageTracker.snapshot`: fold the per-event update over a point-in-time
copy of the store. -/
def UsageTracker.snapshot (t : UsageTracker) : Snapshot :=
  let events := t.snapshot_events
  events.foldl snapStep (snapInit events)

/-- Whether an event falls inside the 24-hour window ending at the cutoff
base: the loop keeps events with `timestamp >= cutoff` (it skips
`timestamp < cutoff`). -/
def inWindow (cutoff : Rat) (e : Event) : Bool :=
  cutoff ≤ e.timestamp

/-- Sum of the values of a string-keyed histogram with `Nat` counts. -/
def sumValsNat (l : List (String × Nat)) : Nat :=
  (l.map (fun p => p.2)).sum

/-! Concrete sample data used by witnesses and counterexamples. -/

/-- A sample token-stats value (10 input, 5 output, total 15). -/
def tokAB : TokenStats :=
  { input_tokens := 10, output_tokens := 5, reasoning_tokens := 0
    cached_tokens := 0, total_tokens := 15 }

/-- A sample successful event from source `"a"` at time 99000. -/
def evA : Event :=
  { api := "openai", model := "gpt", source := "a", auth_index := "a"
    failed := false, status_code := 200, error_message := ""
    tokens := tokAB, timestamp := 99000 }

/-- A sample failed event from source `"a"` at time 99100. -/
def evA2 : Event :=
  { api := "openai", model := "gpt", source := "a", auth_index := "a"
    failed := true, status_code := 500, error_message := "boom"
    tokens := tokAB, timestamp := 99100 }

/-- A sample old (expired) event from source `"a"` at time 1000. -/
def evOld : Event :=
  { api := "openai", model := "gpt", source := "a", auth_index := "a"
    failed := false, status_code := 200, error_message := ""
    tokens := tokAB, timestamp := 1000 }

/-- A sample successful event from source `"b"` at time 99200. -/
def evB : Event :=
  { api := "gemini", model := "flash", source := "b", auth_index := "b"
    failed := false, status_code := 200, error_message := ""
    tokens := tokAB, timestamp := 99200 }

/-- A sample `record` call producing a source-`"x"` event at time 10. -/
def callX : RecordCall :=
  { api := "openai", model := "gpt", source := "x", auth_index := ""
    failed := false, tokens := Option.none, status_code := Option.some 200
    error_message := Option.none, timestamp := Option.some 10, now := 10 }

/-- A sample `record` call producing a source-`"y"` event at time 20. -/
def callY : RecordCall :=
  { api := "openai", model := "gpt", source := "y", auth_index := ""
    failed := true, tokens := Option.some [("input_tokens", PyVal.int 3)]
    status_code := Option.none, error_message := Option.some " err "
    timestamp := Option.some 20, now := 20 }

/-- A sample `record` call producing a source-`"z"` event at time 30. -/
def callZ : RecordCall :=
  { api := "gemini", model := "flash", source := "z", auth_index := "k"
    failed := false, tokens := Option.none, status_code := Option.none
    error_message := Option.none, timestamp := Option.none, now := 30 }

/-- A sample four-event tracker used by read-view witnesses. -/
def trkW : UsageTracker :=
  { maxlen := 100, events := [evA, evA2, evOld, evB] }

/-! Helper lemmas. -/

theorem safe_int_nonneg (v : PyVal) : 0 ≤ safe_int v := by
  unfold safe_int
  cases h : tryToInt (pyOr v (PyVal.int 0)) with
  | none => simp
  | some i =>
    simp only []
    split <;> omega

/-! Claim theorems. -/

/-- C3: for every input (including `None`, missing keys, non-numeric and
negative values), `normalize_token_stats` returns all five token fields as
non-negative integers, without raising (the function is total and the
result type carries exactly the five fields). -/
theorem normalize_token_stats_nonneg
    (tokens : Option (List (String × PyVal))) :
    0 ≤ (normalize_token_stats tokens).input_tokens
    ∧ 0 ≤ (normalize_token_stats tokens).output_tokens
    ∧ 0 ≤ (normalize_token_stats tokens).reasoning_tokens
    ∧ 0 ≤ (normalize_token_stats tokens).cached_tokens
    ∧ 0 ≤ (normalize_token_stats tokens).total_tokens := by
  unfold normalize_token_stats
  refine ⟨safe_int_nonneg _, safe_int_nonneg _, safe_int_nonneg _,
    safe_int_nonneg _, ?_⟩
  dsimp only
  split
  · exact add_nonneg (add_nonneg (safe_int_nonneg _) (safe_int_nonneg _))
      (safe_int_nonneg _)
  · exact safe_int_nonneg _

/-- C4: `total_tokens` equals the explicitly-spelled total when that
resolves to a non-zero value, and otherwise the fallback sum
`input_tokens + output_tokens + reasoning_tokens`; `cached_tokens` never
enters the fallback sum. -/
theorem normalize_token_stats_total
    (tokens : Option (List (String × PyVal))) :
    (normalize_token_stats tokens).total_tokens =
      if explicitTotal (tokens.getD []) = 0
      then (normalize_token_stats tokens).input_tokens
        + (normalize_token_stats tokens).output_tokens
        + (normalize_token_stats tokens).reasoning_tokens
      else explicitTotal (tokens.getD []) := rfl

/-- C1 counterexample: the claim says `reset` with an empty-string source
is a no-op returning 0, but `if not source:` in the code treats `""` like
`None`: on a one-event store it returns 1 and clears the store. -/
theorem reset_empty_source_clears :
    ((UsageTracker.mk 10 [evA]).reset (Option.some "")).2 = 1
    ∧ ((UsageTracker.mk 10 [evA]).reset (Option.some "")).1.events = []
    ∧ ¬ ((UsageTracker.mk 10 [evA]).reset (Option.some "")).2 = 0 := by
  refine ⟨rfl, rfl, by decide⟩

/-- C1 amended: a whitespace-only but non-empty `source` argument makes
`reset` a no-op returning 0; an empty-string `source` argument instead
behaves like passing no source at all, clearing the whole store and
returning the prior event count. -/
theorem reset_blank_source (t : UsageTracker) (S : String) :
    (S ≠ "" → pyStrip S = "" → t.reset (Option.some S) = (t, 0))
    ∧ t.reset (Option.some "")
        = ({ maxlen := t.maxlen, events := [] }, t.events.length) := by
  constructor
  · intro h1 h2
    simp [UsageTracker.reset, h1, h2]
  · simp [UsageTracker.reset]

/-- C1 amended witness: a single-space source on a concrete one-event
store is a no-op returning 0. -/
theorem reset_blank_source_witness :
    (" " : String) ≠ "" ∧ pyStrip " " = ""
    ∧ (UsageTracker.mk 10 [evA]).reset (Option.some " ")
        = (UsageTracker.mk 10 [evA], 0) :=
  ⟨by decide, by decide,
    (reset_blank_source (UsageTracker.mk 10 [evA]) " ").1 (by decide) (by decide)⟩

theorem filter_length_partition (l : List Event) (p : Event → Bool) :
    (l.filter p).length + (l.filter (fun e => !(p e))).length = l.length := by
  induction l with
  | nil => rfl
  | cons e l ih =>
    by_cases hp : p e <;> simp [List.filter_cons, hp, ← ih] <;> omega

/-- C5: for a source argument that is non-empty after trimming, `reset`
keeps exactly the events whose `source` differs from the trimmed argument
(removing exactly the matching ones), returns the number removed, and the
remainder is a sublist of the original store (relative order preserved). -/
theorem reset_source_filters (t : UsageTracker) (S : String)
    (h : pyStrip S ≠ "") :
    (t.reset (Option.some S)).1.events
        = t.events.filter (fun e => e.source ≠ pyStrip S)
    ∧ (t.reset (Option.some S)).2
        = (t.events.filter (fun e => e.source = pyStrip S)).length
    ∧ List.Sublist (t.reset (Option.some S)).1.events t.events := by
  have hS : S ≠ "" := by
    intro h0
    apply h
    rw [h0]
    rfl
  have hreset : t.reset (Option.some S) =
      ({ maxlen := t.maxlen,
         events := t.events.filter (fun e => e.source ≠ pyStrip S) },
       t.events.length
         - (t.events.filter (fun e => e.source ≠ pyStrip S)).length) := by
    simp [UsageTracker.reset, hS, h]
  rw [hreset]
  refine ⟨rfl, ?_, List.filter_sublist _⟩
  have hpart := filter_length_partition t.events
    (fun e => decide (e.source = pyStrip S))
  have hcongr : t.events.filter (fun e => decide (e.source ≠ pyStrip S))
      = t.events.filter
          (fun e => !(decide (e.source = pyStrip S))) := by
    apply List.filter_congr
    intro e _
    simp [decide_not]
  dsimp only
  rw [hcongr]
  omega

/-- C5 witness: on a concrete three-event store, `reset " a "` keeps only
the source-`"b"` event and reports 2 removed. -/
theorem reset_source_filters_witness :
    ((UsageTracker.mk 10 [evA, evB, evA2]).reset (Option.some " a ")).1.events
        = [evA, evB, evA2].filter (fun e => e.source ≠ pyStrip " a ")
    ∧ ((UsageTracker.mk 10 [evA, evB, evA2]).reset (Option.some " a ")).2
        = ([evA, evB, evA2].filter (fun e => e.source = pyStrip " a ")).length
    ∧ List.Sublist
        ((UsageTracker.mk 10 [evA, evB, evA2]).reset (Option.some " a ")).1.events
        [evA, evB, evA2] :=
  reset_source_filters (UsageTracker.mk 10 [evA, evB, evA2]) " a " (by decide)

/-- C10: a source-scoped `reset` leaves the configured capacity unchanged:
the rebuilt deque has the original `maxlen`, so a subsequent `record`
still evicts at the original capacity. -/
theorem reset_preserves_capacity (t : UsageTracker) (S : String)
    (h : pyStrip S ≠ "") :
    (t.reset (Option.some S)).1.maxlen = t.maxlen
    ∧ ∀ c : RecordCall,
        ((t.reset (Option.some S)).1.record c).events
          = dequeAppend t.maxlen ((t.reset (Option.some S)).1.events)
              (mkEvent c) := by
  have hS : S ≠ "" := by
    intro h0
    apply h
    rw [h0]
    rfl
  refine ⟨?_, ?_⟩ <;> simp [UsageTracker.reset, hS, h, UsageTracker.record]

/-- C10 witness: on a concrete store, a source-scoped `reset` keeps
`maxlen` and the next `record` appends against the original capacity. -/
theorem reset_preserves_capacity_witness :
    ((UsageTracker.mk 2 [evA, evB]).reset (Option.some "a")).1.maxlen
        = (UsageTracker.mk 2 [evA, evB]).maxlen
    ∧ (((UsageTracker.mk 2 [evA, evB]).reset (Option.some "a")).1.record
          callX).events
        = dequeAppend (UsageTracker.mk 2 [evA, evB]).maxlen
            (((UsageTracker.mk 2 [evA, evB]).reset (Option.some "a")).1.events)
            (mkEvent callX) :=
  ⟨(reset_preserves_capacity (UsageTracker.mk 2 [evA, evB]) "a" (by decide)).1,
   (reset_preserves_capacity (UsageTracker.mk 2 [evA, evB]) "a" (by decide)).2
     callX⟩

theorem dequeAppend_eq_drop (m : Nat) (xs : List Event) (e : Event)
    (h : xs.length ≤ m) :
    dequeAppend m xs e = (xs ++ [e]).drop (xs.length + 1 - m) := by
  unfold dequeAppend
  dsimp only
  split
  · congr 1
    simp
  · have h0 : xs.length + 1 - m = 0 := by
      simp only [List.length_append, List.length_singleton] at *
      omega
    rw [h0, List.drop_zero]

theorem dequeAppend_length_le (m : Nat) (xs : List Event) (e : Event)
    (h : xs.length ≤ m) : (dequeAppend m xs e).length ≤ m := by
  rw [dequeAppend_eq_drop m xs e h, List.length_drop]
  simp only [List.length_append, List.length_singleton]
  omega

theorem foldl_dequeAppend (m : Nat) (l : List Event) :
    ∀ xs : List Event, xs.length ≤ m →
      l.foldl (dequeAppend m) xs = (xs ++ l).drop (xs.length + l.length - m) := by
  induction l with
  | nil =>
    intro xs h
    simp [Nat.sub_eq_zero_of_le h]
  | cons e l ih =>
    intro xs h
    have h1 : (dequeAppend m xs e).length ≤ m := dequeAppend_length_le m xs e h
    rw [List.foldl_cons, ih _ h1, dequeAppend_eq_drop m xs e h]
    have h2 : xs.length + 1 - m ≤ (xs ++ [e]).length := by
      simp only [List.length_append, List.length_singleton]
      omega
    rw [← List.drop_append_of_le_length h2, List.drop_drop,
      List.append_assoc, List.singleton_append]
    congr 1
    simp only [List.length_drop, List.length_append, List.length_singleton,
      List.length_cons, List.length_nil]
    omega

theorem recordAll_spec (cs : List RecordCall) :
    ∀ t : UsageTracker,
      recordAll t cs
        = { maxlen := t.maxlen,
            events := (cs.map mkEvent).foldl (dequeAppend t.maxlen) t.events } := by
  induction cs with
  | nil => intro t; rfl
  | cons c cs ih =>
    intro t
    show recordAll (t.record c) cs = _
    rw [ih (t.record c)]
    rfl

/-- C2: starting from an empty store of capacity `m`, any sequence of
`record` calls leaves the store holding exactly the most recent
`min (length, m)` events in order (FIFO eviction from the front), so the
size never exceeds the capacity; in particular recording `m + 1` events
leaves exactly `m` events with only the single oldest one evicted. -/
theorem record_capacity_fifo (m : Nat) (cs : List RecordCall) :
    (recordAll (UsageTracker.init m) cs).events
        = (cs.map mkEvent).drop (cs.length - m)
    ∧ (recordAll (UsageTracker.init m) cs).events.length ≤ m
    ∧ (cs.length = m + 1 →
        (recordAll (UsageTracker.init m) cs).events = (cs.map mkEvent).drop 1
        ∧ (recordAll (UsageTracker.init m) cs).events.length = m) := by
  have hspec := recordAll_spec cs (UsageTracker.init m)
  have hfold := foldl_dequeAppend m (cs.map mkEvent) [] (by simp)
  have hev : (recordAll (UsageTracker.init m) cs).events
      = (cs.map mkEvent).drop (cs.length - m) := by
    rw [hspec]
    show (cs.map mkEvent).foldl (dequeAppend m) [] = _
    rw [hfold]
    simp
  refine ⟨hev, ?_, ?_⟩
  · rw [hev, List.length_drop, List.length_map]
    omega
  · intro hlen
    constructor
    · rw [hev, hlen]
      congr 1
      omega
    · rw [hev, List.length_drop, List.length_map, hlen]
      omega

/-- C2 witness: capacity 2 and three concrete `record` calls leave exactly
the last two events. -/
theorem record_capacity_fifo_witness :
    ([callX, callY, callZ].length = 2 + 1)
    ∧ (recordAll (UsageTracker.init 2) [callX, callY, callZ]).events
        = ([callX, callY, callZ].map mkEvent).drop 1
    ∧ (recordAll (UsageTracker.init 2) [callX, callY, callZ]).events.length
        = 2 :=
  ⟨rfl,
   ((record_capacity_fifo 2 [callX, callY, callZ]).2.2 rfl).1,
   ((record_capacity_fifo 2 [callX, callY, callZ]).2.2 rfl).2⟩

theorem bump_lookup_self {A : Type} (l : List (String × A)) (k : String)
    (d : A) (f : A → A) :
    lookupAssoc (bumpAssoc l k d f) k
      = Option.some (f ((lookupAssoc l k).getD d)) := by
  induction l with
  | nil => simp [bumpAssoc, lookupAssoc]
  | cons p rest ih =>
    obtain ⟨k', v⟩ := p
    by_cases hk : k' = k
    · subst hk
      simp [bumpAssoc, lookupAssoc]
    · simp [bumpAssoc, lookupAssoc, hk, ih]

theorem bump_lookup_other {A : Type} (l : List (String × A)) (k : String)
    (d : A) (f : A → A) (k2 : String) (h : k2 ≠ k) :
    lookupAssoc (bumpAssoc l k d f) k2 = lookupAssoc l k2 := by
  induction l with
  | nil => simp [bumpAssoc, lookupAssoc, Ne.symm h]
  | cons p rest ih =>
    obtain ⟨k', v⟩ := p
    by_cases hk : k' = k
    · subst hk
      simp [bumpAssoc, lookupAssoc, Ne.symm h]
    · simp [bumpAssoc, lookupAssoc, hk, ih]

theorem stats_fold_lookup (cutoff : Rat) (s : String) (l : List Event) :
    ∀ acc : List (String × SourceStats),
    lookupAssoc (l.foldl (statsStep cutoff) acc) s =
      if l.filter (fun e => inWindow cutoff e && decide (e.source = s)) = []
      then lookupAssoc acc s
      else Option.some
        ((l.filter (fun e => inWindow cutoff e && decide (e.source = s))).foldl
          addEventStats ((lookupAssoc acc s).getD zeroStats)) := by
  induction l with
  | nil => intro acc; simp
  | cons e l ih =>
    intro acc
    rw [List.foldl_cons]
    by_cases hw : e.timestamp < cutoff
    · have hwin : inWindow cutoff e = false := by
        simp only [inWindow, decide_eq_false_iff_not, not_le]
        exact hw
      have hstep : statsStep cutoff acc e = acc := by
        simp [statsStep, hw]
      have hfil : (e :: l).filter
            (fun x => inWindow cutoff x && decide (x.source = s))
          = l.filter (fun x => inWindow cutoff x && decide (x.source = s)) := by
        rw [List.filter_cons]
        simp [hwin]
      rw [hstep, ih acc, hfil]
    · have hwin : inWindow cutoff e = true := by
        simp only [inWindow, decide_eq_true_eq]
        exact not_lt.mp hw
      have hstep : statsStep cutoff acc e
          = bumpAssoc acc e.source zeroStats (fun st => addEventStats st e) := by
        simp [statsStep, hw]
      rw [hstep, ih _]
      by_cases hs : e.source = s
      · have hfil : (e :: l).filter
              (fun x => inWindow cutoff x && decide (x.source = s))
            = e :: l.filter
                (fun x => inWindow cutoff x && decide (x.source = s)) := by
          rw [List.filter_cons]
          simp [hwin, hs]
        rw [hfil]
        have hlook : lookupAssoc
              (bumpAssoc acc e.source zeroStats (fun st => addEventStats st e)) s
            = Option.some (addEventStats ((lookupAssoc acc s).getD zeroStats) e) := by
          rw [hs]
          exact bump_lookup_self acc s zeroStats (fun st => addEventStats st e)
        rw [hlook]
        by_cases hq : l.filter
            (fun x => inWindow cutoff x && decide (x.source = s)) = []
        · simp [hq]
        · simp [hq, List.foldl_cons]
      · have hfil : (e :: l).filter
              (fun x => inWindow cutoff x && decide (x.source = s))
            = l.filter (fun x => inWindow cutoff x && decide (x.source = s)) := by
          rw [List.filter_cons]
          simp [hs]
        have hlook := bump_lookup_other acc e.source zeroStats
          (fun st => addEventStats st e) s (fun hh => hs hh.symm)
        rw [hfil, hlook]

theorem foldl_addEventStats_counts (q : List Event) :
    ∀ init : SourceStats,
      (q.foldl addEventStats init).calls_24h = init.calls_24h + q.length
      ∧ (q.foldl addEventStats init).success_24h
          = init.success_24h + (q.filter (fun e => !e.failed)).length
      ∧ (q.foldl addEventStats init).failed_24h
          = init.failed_24h + (q.filter (fun e => e.failed)).length
      ∧ (q.foldl addEventStats init).tokens_24h
          = init.tokens_24h + (q.map (fun e => e.tokens.total_tokens)).sum := by
  induction q with
  | nil => intro init; simp
  | cons e q ih =>
    intro init
    obtain ⟨h1, h2, h3, h4⟩ := ih (addEventStats init e)
    rw [List.foldl_cons]
    refine ⟨?_, ?_, ?_, ?_⟩
    · rw [h1]
      simp only [addEventStats, List.length_cons]
      omega
    · rw [h2, List.filter_cons]
      by_cases hf : e.failed <;> simp [addEventStats, hf] <;> omega
    · rw [h3, List.filter_cons]
      by_cases hf : e.failed <;> simp [addEventStats, hf] <;> omega
    · rw [h4]
      simp only [addEventStats, List.map_cons, List.sum_cons]
      omega

/-- C6: `get_stats_24h` contains a source exactly when it has at least one
event in the 24-hour window (`timestamp >= now - 86400`, i.e. the loop
skips `timestamp < cutoff`); its row counts exactly the qualifying events
of that source (total, successes, failures) and sums their
`total_tokens`.  Sources with no qualifying event are absent. -/
theorem get_stats_24h_window_groups (t : UsageTracker) (now : Rat)
    (s : String) :
    (lookupAssoc (t.get_stats_24h now) s = Option.none
      ↔ t.events.filter
          (fun e => inWindow (now - 24 * 3600) e && decide (e.source = s))
            = [])
    ∧ ∀ st : SourceStats,
        lookupAssoc (t.get_stats_24h now) s = Option.some st →
          st.calls_24h = (t.events.filter
              (fun e => inWindow (now - 24 * 3600) e
                && decide (e.source = s))).length
          ∧ st.success_24h = ((t.events.filter
              (fun e => inWindow (now - 24 * 3600) e
                && decide (e.source = s))).filter
                  (fun e => !e.failed)).length
          ∧ st.failed_24h = ((t.events.filter
              (fun e => inWindow (now - 24 * 3600) e
                && decide (e.source = s))).filter
                  (fun e => e.failed)).length
          ∧ st.tokens_24h = ((t.events.filter
              (fun e => inWindow (now - 24 * 3600) e
                && decide (e.source = s))).map
                  (fun e => e.tokens.total_tokens)).sum := by
  have hfold := stats_fold_lookup (now - 24 * 3600) s t.events
    ([] : List (String × SourceStats))
  have hg : t.get_stats_24h now
      = t.events.foldl (statsStep (now - 24 * 3600)) [] := rfl
  rw [hg]
  constructor
  · constructor
    · intro hnone
      by_contra hne
      rw [hfold, if_neg hne] at hnone
      exact Option.noConfusion hnone
    · intro hqe
      rw [hfold, if_pos hqe]
      rfl
  · intro st hst
    rw [hfold] at hst
    by_cases hqe : t.events.filter
        (fun e => inWindow (now - 24 * 3600) e && decide (e.source = s)) = []
    · rw [if_pos hqe] at hst
      exact absurd hst (by simp [lookupAssoc])
    · rw [if_neg hqe] at hst
      have hst' := Option.some.inj hst
      obtain ⟨h1, h2, h3, h4⟩ := foldl_addEventStats_counts
        (t.events.filter
          (fun e => inWindow (now - 24 * 3600) e && decide (e.source = s)))
        ((lookupAssoc ([] : List (String × SourceStats)) s).getD zeroStats)
      have hinit : (lookupAssoc ([] : List (String × SourceStats)) s).getD
          zeroStats = zeroStats := rfl
      rw [hinit] at h1 h2 h3 h4 hst'
      rw [← hst']
      refine ⟨?_, ?_, ?_, ?_⟩
      · rw [h1]
        simp [zeroStats]
      · rw [h2]
        simp [zeroStats]
      · rw [h3]
        simp [zeroStats]
      · rw [h4]
        simp [zeroStats]

/-- C6 witness: on the concrete tracker `trkW` at `now = 100000`, the row
for source `"a"` is exactly the counts over its two in-window events. -/
theorem get_stats_24h_window_groups_witness :
    (⟨2, 1, 1, 30⟩ : SourceStats).calls_24h = (trkW.events.filter
        (fun e => inWindow (100000 - 24 * 3600) e
          && decide (e.source = "a"))).length
    ∧ (⟨2, 1, 1, 30⟩ : SourceStats).success_24h = ((trkW.events.filter
        (fun e => inWindow (100000 - 24 * 3600) e
          && decide (e.source = "a"))).filter (fun e => !e.failed)).length
    ∧ (⟨2, 1, 1, 30⟩ : SourceStats).failed_24h = ((trkW.events.filter
        (fun e => inWindow (100000 - 24 * 3600) e
          && decide (e.source = "a"))).filter (fun e => e.failed)).length
    ∧ (⟨2, 1, 1, 30⟩ : SourceStats).tokens_24h = ((trkW.events.filter
        (fun e => inWindow (100000 - 24 * 3600) e
          && decide (e.source = "a"))).map
            (fun e => e.tokens.total_tokens)).sum :=
  (get_stats_24h_window_groups trkW 100000 "a").2 ⟨2, 1, 1, 30⟩ (by
    have h : trkW.get_stats_24h 100000
        = [("a", ⟨2, 1, 1, 30⟩), ("b", ⟨1, 1, 0, 15⟩)] := by
      norm_num [UsageTracker.get_stats_24h, UsageTracker.snapshot_events,
        trkW, statsStep, inWindow, bumpAssoc, addEventStats, zeroStats,
        tokAB, evA, evA2, evOld, evB, List.foldl]
      all_goals decide
    rw [h]
    simp [lookupAssoc])

theorem bump_keys {A : Type} (l : List (String × A)) (k : String) (d : A)
    (f : A → A) :
    (bumpAssoc l k d f).map Prod.fst =
      if k ∈ l.map Prod.fst then l.map Prod.fst else l.map Prod.fst ++ [k] := by
  induction l with
  | nil => simp [bumpAssoc]
  | cons p rest ih =>
    obtain ⟨k', v⟩ := p
    by_cases hk : k' = k
    · subst hk
      simp [bumpAssoc]
    · have hne : ¬ k = k' := fun hh => hk hh.symm
      simp only [bumpAssoc, if_neg hk, List.map_cons, List.mem_cons, hne,
        false_or, ih]
      by_cases hmem : k ∈ rest.map Prod.fst <;> simp [hmem]

theorem bump_keys_nodup {A : Type} (l : List (String × A)) (k : String)
    (d : A) (f : A → A) (h : (l.map Prod.fst).Nodup) :
    ((bumpAssoc l k d f).map Prod.fst).Nodup := by
  rw [bump_keys]
  by_cases hmem : k ∈ l.map Prod.fst
  · simp [hmem, h]
  · simp [hmem, List.nodup_append, h, List.disjoint_singleton]

theorem stats_fold_keys_nodup (cutoff : Rat) (l : List Event) :
    ∀ acc : List (String × SourceStats),
      ((acc.map Prod.fst).Nodup) →
      (((l.foldl (statsStep cutoff) acc).map Prod.fst).Nodup) := by
  induction l with
  | nil => intro acc h; exact h
  | cons e l ih =>
    intro acc h
    rw [List.foldl_cons]
    apply ih
    unfold statsStep
    split
    · exact h
    · exact bump_keys_nodup acc e.source zeroStats _ h

/-- C7: `get_aggregated_24h` totals the per-source calls of
`get_stats_24h`, counts the distinct sources (the grouping keys are
pairwise distinct), and guards the average against division by zero:
it is 0 when there are no sources and `total_calls / total_files`
otherwise. -/
theorem get_aggregated_24h_totals (t : UsageTracker) (now : Rat) :
    (t.get_aggregated_24h now).total_calls_24h
        = ((t.get_stats_24h now).map (fun p => p.2.calls_24h)).sum
    ∧ (t.get_aggregated_24h now).total_files = (t.get_stats_24h now).length
    ∧ ((t.get_stats_24h now).map Prod.fst).Nodup
    ∧ (t.get_aggregated_24h now).avg_calls_per_file
        = (if (t.get_stats_24h now).length = 0 then 0
           else ((((t.get_stats_24h now).map
              (fun p => p.2.calls_24h)).sum : Nat) : Rat)
             / (((t.get_stats_24h now).length : Nat) : Rat)) := by
  refine ⟨rfl, rfl, ?_, ?_⟩
  · exact stats_fold_keys_nodup (now - 24 * 3600) t.events [] (by simp)
  · by_cases h : (t.get_stats_24h now).length = 0 <;>
      simp [UsageTracker.get_aggregated_24h, h]

theorem bump_sumValsNat (l : List (String × Nat)) (k : String) (n : Nat) :
    sumValsNat (bumpAssoc l k 0 (· + n)) = sumValsNat l + n := by
  induction l with
  | nil => simp [bumpAssoc, sumValsNat]
  | cons p rest ih =>
    obtain ⟨k', v⟩ := p
    by_cases hk : k' = k
    · subst hk
      simp [bumpAssoc, sumValsNat]
      omega
    · simp only [bumpAssoc, if_neg hk, sumValsNat, List.map_cons,
        List.sum_cons] at *
      omega

theorem snap_fold_invariant (l : List Event) :
    ∀ acc : Snapshot,
      (l.foldl snapStep acc).total_requests = acc.total_requests
      ∧ (l.foldl snapStep acc).success_count
          + (l.foldl snapStep acc).failure_count
          = acc.success_count + acc.failure_count + l.length
      ∧ sumValsNat (l.foldl snapStep acc).requests_by_day
          = sumValsNat acc.requests_by_day + l.length
      ∧ sumValsNat (l.foldl snapStep acc).requests_by_hour
          = sumValsNat acc.requests_by_hour + l.length := by
  induction l with
  | nil => intro acc; simp
  | cons e l ih =>
    intro acc
    rw [List.foldl_cons]
    obtain ⟨h1, h2, h3, h4⟩ := ih (snapStep acc e)
    have hreq : (snapStep acc e).total_requests = acc.total_requests := rfl
    have hday : (snapStep acc e).requests_by_day
        = bumpAssoc acc.requests_by_day (dayKey e.timestamp) 0 (· + 1) := rfl
    have hhour : (snapStep acc e).requests_by_hour
        = bumpAssoc acc.requests_by_hour (hourKey e.timestamp) 0 (· + 1) := rfl
    refine ⟨?_, ?_, ?_, ?_⟩
    · rw [h1, hreq]
    · rw [h2]
      by_cases hf : e.failed <;>
        simp only [snapStep, hf, if_pos, if_neg, Bool.false_eq_true,
          not_false_iff, List.length_cons, ite_true, ite_false] <;> omega
    · rw [h3, hday, bump_sumValsNat, List.length_cons]
      omega
    · rw [h4, hhour, bump_sumValsNat, List.length_cons]
      omega

/-- C8: the snapshot totals are consistent: `total_requests` equals
`success_count + failure_count`, and both day and hour request histograms
sum to `total_requests`. -/
theorem snapshot_totals_consistent (t : UsageTracker) :
    t.snapshot.total_requests
        = t.snapshot.success_count + t.snapshot.failure_count
    ∧ sumValsNat t.snapshot.requests_by_day = t.snapshot.total_requests
    ∧ sumValsNat t.snapshot.requests_by_hour = t.snapshot.total_requests := by
  have hsnap : t.snapshot
      = t.events.foldl snapStep (snapInit t.events) := rfl
  obtain ⟨h1, h2, h3, h4⟩ := snap_fold_invariant t.events (snapInit t.events)
  rw [hsnap]
  refine ⟨?_, ?_, ?_⟩
  · rw [h1]
    simp only [snapInit] at *
    omega
  · rw [h3, h1]
    simp [snapInit, sumValsNat]
  · rw [h4, h1]
    simp [snapInit, sumValsNat]
